import Mathlib

/-!
Shallow embedding of the minishift remote bootstrap pipeline.

The development models, directly from the Go sources:
  * pkg/util/ocp/download.go — the asset fetch and unpack engine
    (DownloadOcpVersionFromMirror, listDirExcluding and the copy tail),
  * pkg/minishift/network — the network Configurator
    (GetIP, checkSupportForAddressAssignment, ConfigureDynamicAssignment,
    ConfigureStaticAssignment, fillNetworkSettingsScript,
    GetNetworkSettingsForHost, WriteNetworkSettingsToHost),
  * the provisioner helpers (decideStorageDriver, getFilesystemType).

Effectful operations (HTTP download, archive extraction, SSH commands,
filesystem calls, the persisted instance-config store) are modelled by
explicit oracle environments, and every externally visible action is
recorded in an event trace, so that "performs exactly these calls"
properties become equalities about traces.
-/

deriving instance DecidableEq for Except

namespace Minishift

/-- Go strings.HasSuffix. -/
def goHasSuffix (s suffix : String) : Bool :=
  suffix.data.isSuffixOf s.data

/-- Go strings.TrimPrefix(s, "v"): drop one leading "v" when present. -/
def trimV (s : String) : String :=
  if "v".data.isPrefixOf s.data then String.mk (s.data.drop 1) else s

/-- The whitespace class of Go unicode.IsSpace, restricted to the ASCII
characters that occur in the modelled command outputs. -/
def isGoSpace (c : Char) : Bool :=
  c = ' ' || c = '\t' || c = '\n' || c = '\x0b' || c = '\x0c' || c = '\r'

/-- Go strings.TrimSpace. -/
def goTrimSpace (s : String) : String :=
  String.mk (((s.data.dropWhile isGoSpace).reverse.dropWhile isGoSpace).reverse)

/-- Go strings.Split with a one-character separator (the separators used
by the modelled code are "/" and " "): the list of fields, never empty. -/
def goSplitChars (sep : Char) : List Char → List (List Char)
  | [] => [[]]
  | c :: rest =>
    let r := goSplitChars sep rest
    if c = sep then
      [] :: r
    else
      match r with
      | h :: t => (c :: h) :: t
      | [] => [[c]]

/-- Go strings.Split over strings, one-character separator. -/
def goSplit (s : String) (sep : Char) : List String :=
  (goSplitChars sep s.data).map String.mk

namespace Ocp

/-- The minishiftos.OS platform enumeration: LINUX, DARWIN, WINDOWS. -/
inductive OS
  | linux
  | darwin
  | windows
deriving DecidableEq, Repr

/-- The string value carried by the Go OS constant. -/
def OS.goString : OS → String
  | .linux => "linux"
  | .darwin => "darwin"
  | .windows => "windows"

/-- Constant TAR of download.go. -/
def TAR : String := "tar.gz"

/-- Constant ZIP of download.go. -/
def ZIP : String := "zip"

/-- Constant OMURL of download.go, the openshift mirror base. -/
def OMURL : String := "https://mirror.openshift.com/pub/openshift-v3/clients/"

/-- Lines 43-45 of download.go: DARWIN is mapped to "macosx", any other
platform value passes through unmapped. -/
def platformSegment (osType : OS) : String :=
  if osType = OS.darwin then "macosx" else osType.goString

/-- Lines 47-50 of download.go: extension is TAR unless the platform is
WINDOWS, in which case it is ZIP. -/
def archiveExtension (osType : OS) : String :=
  if osType = OS.windows then ZIP else TAR

/-- Lines 108-110 of download.go: binaryName "oc" gains the suffix ".exe"
exactly on WINDOWS. -/
def finalBinaryName (osType : OS) : String :=
  if osType = OS.windows then "oc" ++ ".exe" else "oc"

/-- Matcher for the Go regular expression ".*.tar.*" used (unanchored, as
regexp.MatchString does) at the single call site of listDirExcluding. The
dots are wildcards and both ".*" match the empty string, so a name
matches exactly when it contains some character followed by the literal
"tar", that is, when "tar" occurs at a position of at least one; nothing
needs to follow. In particular the gunzipped intermediate "oc.tar" is
matched, hence excluded from the listing, just like "oc.tar.gz". -/
def matchesTarExclude : List Char → Bool
  | _ :: rest =>
    (match rest with
     | 't' :: 'a' :: 'r' :: _ => true
     | _ => false)
    || matchesTarExclude rest
  | [] => false

/-- listDirExcluding of download.go, at its call with pattern ".*.tar.*":
keep the directory entries whose names do not match the exclusion. The
directory listing itself is supplied by the caller (it is the state of the
temporary directory after extraction). -/
def listDirExcluding (entries : List String) : List String :=
  entries.filter (fun f => !(matchesTarExclude f.data))

/-- Oracle environment for one run of DownloadOcpVersionFromMirror: the
outcome of every external effect the function performs, in the order the
Go code performs them. -/
structure FetchEnv where
  /-- Whether ioutil.TempDir succeeds. -/
  tmpDirOk : Bool
  /-- The directory name ioutil.TempDir returns. -/
  tmpDir : String
  /-- Result of download(url, assetTmpFile, "", ""). -/
  downloadResult : Except String Unit
  /-- Whether archive.Ungzip succeeds (tar path). -/
  ungzipOk : Bool
  /-- Whether archive.Untar succeeds (tar path). -/
  untarOk : Bool
  /-- Whether archive.Unzip succeeds (zip path). -/
  unzipOk : Bool
  /-- Result of ioutil.ReadDir on the temporary directory after
  extraction (tar path): the entry names, or a read failure. -/
  dirEntries : Except String (List String)
  /-- Whether os.MkdirAll yields err == nil or os.IsExist(err). -/
  mkdirOk : Bool
  /-- Result of copy(binaryPath, finalBinaryPath). -/
  copyResult : Except String Unit
  /-- Result of os.Chmod on the final binary. -/
  chmodResult : Except String Unit
deriving Repr

/-- Externally visible actions of DownloadOcpVersionFromMirror. -/
inductive FetchEvent
  | download (url target : String)
  | ungzip (src dst : String)
  | untar (src dst : String)
  | unzip (src dst : String)
  | mkdirAll (dir : String)
  | copyFile (src dst : String)
  | chmod (path : String)
deriving DecidableEq, Repr

/-- Lines 108-130 of download.go, the common tail after the extraction
switch: compute the platform binary name, ensure the output directory,
copy the binary into place and make it executable. -/
def finishBinaryCopy (osType : OS) (outputPath binaryPathRoot : String)
    (env : FetchEnv) (evs : List FetchEvent) : List FetchEvent × Except String Unit :=
  let binaryName := finalBinaryName osType
  let binaryPath := binaryPathRoot ++ "/" ++ binaryName
  let ev1 := evs ++ [FetchEvent.mkdirAll outputPath]
  if !env.mkdirOk then
    (ev1, Except.error "Cannot create the target directory.")
  else
    let finalBinaryPath := outputPath ++ "/" ++ binaryName
    let ev2 := ev1 ++ [FetchEvent.copyFile binaryPath finalBinaryPath]
    match env.copyResult with
    | Except.error e => (ev2, Except.error e)
    | Except.ok _ =>
      let ev3 := ev2 ++ [FetchEvent.chmod finalBinaryPath]
      match env.chmodResult with
      | Except.error e => (ev3, Except.error ("Cannot make executable: " ++ e))
      | Except.ok _ => (ev3, Except.ok ())

/-- DownloadOcpVersionFromMirror of download.go. The suffix dispatch of the
Go switch tests assetTmpFile = filepath.Join(tmpDir, targetFile); since
targetFile = "oc." ++ extension, the suffix of the join is the suffix of
targetFile, which is what is tested here. -/
def DownloadOcpVersionFromMirror (version : String) (osType : OS)
    (outputPath : String) (env : FetchEnv) : List FetchEvent × Except String Unit :=
  let platform := platformSegment osType
  let extension := archiveExtension osType
  let binaryName := "oc"
  let url := OMURL ++ trimV version ++ "/" ++ platform ++ "/" ++ binaryName ++ "." ++ extension
  let targetFile := binaryName ++ "." ++ extension
  if !env.tmpDirOk then
    ([], Except.error "Cannot create temporary download directory.")
  else
    let tmpDir := env.tmpDir
    let assetTmpFile := tmpDir ++ "/" ++ targetFile
    let ev0 := [FetchEvent.download url assetTmpFile]
    match env.downloadResult with
    | Except.error e => (ev0, Except.error e)
    | Except.ok _ =>
      if goHasSuffix targetFile TAR then
        let tarFile := String.mk (assetTmpFile.data.take (assetTmpFile.data.length - 3))
        let ev1 := ev0 ++ [FetchEvent.ungzip assetTmpFile tarFile]
        if !env.ungzipOk then
          (ev1, Except.error "Cannot ungzip")
        else
          let ev2 := ev1 ++ [FetchEvent.untar tarFile tmpDir]
          if !env.untarOk then
            (ev2, Except.error "Cannot untar")
          else
            match env.dirEntries with
            | Except.error _ => (ev2, Except.error "Cannot list content of")
            | Except.ok entries =>
              let content := listDirExcluding entries
              if content.length > 1 then
                (ev2, Except.error ("Unexpected number of files in tmp directory: ["
                  ++ String.intercalate " " content ++ "]"))
              else
                finishBinaryCopy osType outputPath tmpDir env ev2
      else if goHasSuffix targetFile ZIP then
        let ev1 := ev0 ++ [FetchEvent.unzip assetTmpFile tmpDir]
        if !env.unzipOk then
          (ev1, Except.error "Cannot unzip")
        else
          finishBinaryCopy osType outputPath tmpDir env ev1
      else
        finishBinaryCopy osType outputPath "" env ev0

end Ocp

namespace Network

/-- UTF-8 encoding of one code point, the byte values Go obtains from
casting a string to a byte slice. -/
def utf8EncodeChar (c : Char) : List Nat :=
  let n := c.toNat
  if n < 128 then [n]
  else if n < 2048 then [192 + n / 64, 128 + n % 64]
  else if n < 65536 then [224 + n / 4096, 128 + (n / 64) % 64, 128 + n % 64]
  else [240 + n / 262144, 128 + (n / 4096) % 64, 128 + (n / 64) % 64, 128 + n % 64]

/-- UTF-8 byte sequence of a string. -/
def utf8Bytes (s : String) : List Nat :=
  (s.data.map utf8EncodeChar).flatten

/-- The standard base64 alphabet used by Go encoding/base64 StdEncoding. -/
def base64Chars : List Char :=
  "ABCDEFGHIJKLMNOPQRSTUVWXYZabcdefghijklmnopqrstuvwxyz0123456789+/".data

/-- Character of the base64 alphabet at a 6-bit index. -/
def b64c (n : Nat) : Char := base64Chars.getD n 'A'

/-- Go base64.StdEncoding.EncodeToString over a byte list. -/
def base64Encode : List Nat → String
  | b0 :: b1 :: b2 :: rest =>
    let n := (b0 % 256) * 65536 + (b1 % 256) * 256 + b2 % 256
    String.mk [b64c (n / 262144), b64c (n / 4096 % 64), b64c (n / 64 % 64), b64c (n % 64)]
      ++ base64Encode rest
  | [b0, b1] =>
    let n := (b0 % 256) * 65536 + (b1 % 256) * 256
    String.mk [b64c (n / 262144), b64c (n / 4096 % 64), b64c (n / 64 % 64), '=']
  | [b0] =>
    let n := (b0 % 256) * 65536
    String.mk [b64c (n / 262144), b64c (n / 4096 % 64), '=', '=']
  | [] => ""

/-- Message constant configureIPAddressMessage of the network package. -/
def configureIPAddressMessage : String := "-- Set the following network settings to VM ..."

/-- Message constant configureRestartNeededMessage of the network package. -/
def configureRestartNeededMessage : String := "Network settings get applied to the instance on restart"

/-- Message constant configureNetworkNotSupportedMessage of the network package. -/
def configureNetworkNotSupportedMessage : String := "The Minishift VM does not support network assignment"

/-- The NetworkSettings struct of the network package; Go zero values are
empty strings and false. -/
structure NetworkSettings where
  Device : String := ""
  IPAddress : String := ""
  Netmask : String := ""
  Gateway : String := ""
  DNS1 : String := ""
  DNS2 : String := ""
  UseDHCP : Bool := false
  Disabled : Bool := false
deriving DecidableEq, Repr

/-- How a Go text/template renders a bool value. -/
def goBoolString (b : Bool) : String := if b then "true" else "false"

/-- Rendering of configureNetworkScriptStaticAddressTemplate: the DEVICE,
IPADDR, NETMASK, GATEWAY, DNS1, DNS2 key=value lines. -/
def renderStaticAddressTemplate (ns : NetworkSettings) : String :=
  "DEVICE=" ++ ns.Device ++ "\nIPADDR=" ++ ns.IPAddress ++ "\nNETMASK=" ++ ns.Netmask
    ++ "\nGATEWAY=" ++ ns.Gateway ++ "\nDNS1=" ++ ns.DNS1 ++ "\nDNS2=" ++ ns.DNS2 ++ "\n"

/-- Rendering of configureNetworkScriptDynamicAddressTemplate: the DEVICE
and USEDHCP key=value lines. -/
def renderDynamicAddressTemplate (ns : NetworkSettings) : String :=
  "DEVICE=" ++ ns.Device ++ "\nUSEDHCP=" ++ goBoolString ns.UseDHCP ++ "\n"

/-- Rendering of configureNetworkScriptDisabledAddressTemplate: the DEVICE
and DISABLED key=value lines. -/
def renderDisabledAddressTemplate (ns : NetworkSettings) : String :=
  "DEVICE=" ++ ns.Device ++ "\nDISABLED=" ++ goBoolString ns.Disabled ++ "\n"

/-- fillNetworkSettingsScript of the network package: template selection
priority is Disabled, then UseDHCP, then the static template. -/
def fillNetworkSettingsScript (networkSettings : NetworkSettings) : String :=
  if networkSettings.Disabled then
    renderDisabledAddressTemplate networkSettings
  else if networkSettings.UseDHCP then
    renderDynamicAddressTemplate networkSettings
  else
    renderStaticAddressTemplate networkSettings

/-- The persisted instance configuration fields the network package reads
and writes (minishiftConfig.InstanceConfig). -/
structure InstanceConfig where
  IPAddress : String
  IsRHELBased : Bool
  SupportsNetworkAssignment : Bool
deriving DecidableEq, Repr

/-- The hypervisor kind consumed through the minishiftConfig.IsVirtualBox,
IsKVM, IsHyperV and IsXhyve predicates; `other` covers every further
VM driver name. -/
inductive Hypervisor
  | virtualbox
  | kvm
  | hyperv
  | xhyve
  | other (name : String)
deriving DecidableEq, Repr

/-- Predicate minishiftConfig.IsVirtualBox. -/
def IsVirtualBox : Hypervisor → Bool
  | .virtualbox => true
  | _ => false

/-- Predicate minishiftConfig.IsKVM. -/
def IsKVM : Hypervisor → Bool
  | .kvm => true
  | _ => false

/-- Predicate minishiftConfig.IsHyperV. -/
def IsHyperV : Hypervisor → Bool
  | .hyperv => true
  | _ => false

/-- Predicate minishiftConfig.IsXhyve. -/
def IsXhyve : Hypervisor → Bool
  | .xhyve => true
  | _ => false

/-- Oracle for the libmachine driver: its GetIP capability and the
outcome of drivers.RunSSHCommandFromDriver per command string. -/
structure Driver where
  getIP : Except String String
  runSSH : String → Except String String

/-- Externally visible actions of the network Configurator. -/
inductive Event
  | println (msg : String)
  | query (cmd : String)
  | writeHost (settings : NetworkSettings)
  | persist (cfg : InstanceConfig)
deriving DecidableEq, Repr

/-- GetIP of the network package: prefer the persisted instance IP when it
is non-empty, otherwise fall back to the driver. -/
def GetIP (cfg : InstanceConfig) (driver : Driver) : Except String String :=
  let configuredIP := cfg.IPAddress
  if configuredIP ≠ "" then
    Except.ok configuredIP
  else
    match driver.getIP with
    | Except.error err => Except.error err
    | Except.ok ip => Except.ok ip

/-- checkSupportForAddressAssignment of the network package: true under
the capability gate, otherwise atexit.ExitWithMessage (modelled as an
error value that aborts the whole operation). -/
def checkSupportForAddressAssignment (cfg : InstanceConfig) : Except String Bool :=
  if cfg.IsRHELBased && cfg.SupportsNetworkAssignment then
    Except.ok true
  else
    Except.error configureNetworkNotSupportedMessage

/-- Whether an Except value is a failure. -/
def exceptFailed : Except String String → Bool
  | Except.error _ => true
  | Except.ok _ => false

/-- The remote command WriteNetworkSettingsToHost builds: decode the
base64 rendering of the settings script into the per-device networking
file under /var/lib/minishift. -/
def networkingCmd (networkSettings : NetworkSettings) : String :=
  let networkScript := fillNetworkSettingsScript networkSettings
  let encodedScript := base64Encode (utf8Bytes networkScript)
  "echo " ++ encodedScript ++ " | base64 --decode | sudo tee /var/lib/minishift/networking-"
    ++ networkSettings.Device ++ " > /dev/null"

/-- WriteNetworkSettingsToHost of the network package: run the single
remote write command; print FAIL and return false on a failed remote
command, print OK and return true otherwise. -/
def WriteNetworkSettingsToHost (driver : Driver) (networkSettings : NetworkSettings) :
    List Event × Bool :=
  let cmd := networkingCmd networkSettings
  let ok := !(exceptFailed (driver.runSSH cmd))
  ([Event.writeHost networkSettings, Event.println (if ok then "OK" else "FAIL")], ok)

/-- printNetworkSettings of the network package, as its println trace. -/
def printNetworkSettings (networkSettings : NetworkSettings) : List Event :=
  [Event.println configureIPAddressMessage,
   Event.println ("   Device:      " ++ networkSettings.Device),
   Event.println ("   IP Address:  " ++ networkSettings.IPAddress ++ "/" ++ networkSettings.Netmask)]
  ++ (if networkSettings.Gateway ≠ "" then
        [Event.println ("   Gateway:     " ++ networkSettings.Gateway)]
      else [])
  ++ (if networkSettings.DNS1 ≠ "" then
        [Event.println ("   Nameservers: " ++ networkSettings.DNS1 ++ " " ++ networkSettings.DNS2)]
      else [])

/-- GetNetworkSettingsForHost of the network package: the strict discovery
sequence, every failure fatal. Each remote query is recorded as a query
event; the outputs are parsed exactly as the Go code does (the netmask
index access panics when the address info holds no "/", modelled as a
fatal error). -/
def GetNetworkSettingsForHost (driver : Driver) : List Event × Except String NetworkSettings :=
  match driver.getIP with
  | Except.error e => ([], Except.error ("Error getting IP address: " ++ e))
  | Except.ok instanceip =>
    if instanceip = "" then
      ([], Except.error ("Error getting IP address: " ++ "No address available"))
    else
      let devCmd := "ip a |grep -i \x27" ++ instanceip
        ++ "\x27 | awk \x27\x7bprint $NF\x7d\x27 | tr -d \x27\n\x27"
      match driver.runSSH devCmd with
      | Except.error e => ([Event.query devCmd], Except.error ("Error getting device: " ++ e))
      | Except.ok device =>
        let addrCmd := "ip -o -f inet addr show " ++ device
          ++ " | head -n1 | awk \x27/scope global/ \x7bprint $4\x7d\x27"
        match driver.runSSH addrCmd with
        | Except.error e =>
          ([Event.query devCmd, Event.query addrCmd], Except.error ("Error getting netmask: " ++ e))
        | Except.ok addressInfo =>
          match goSplit (goTrimSpace addressInfo) '/' with
          | ipAddress :: netmask :: _ =>
            let resolveCmd := "cat /etc/resolv.conf |grep -i \x27^nameserver\x27 | cut -d \x27 \x27 -f2 | tr \x27\n\x27 \x27 \x27"
            match driver.runSSH resolveCmd with
            | Except.error e =>
              ([Event.query devCmd, Event.query addrCmd, Event.query resolveCmd],
               Except.error ("Error getting nameserver: " ++ e))
            | Except.ok resolveInfo =>
              let nameservers := goSplit (goTrimSpace resolveInfo) ' '
              let routeCmd := "route -n | grep \x27UG[ \t]\x27 | awk \x27\x7bprint $2\x7d\x27 | tr -d \x27\n\x27"
              match driver.runSSH routeCmd with
              | Except.error e =>
                ([Event.query devCmd, Event.query addrCmd, Event.query resolveCmd,
                  Event.query routeCmd],
                 Except.error ("Error getting gateway: " ++ e))
              | Except.ok gateway =>
                ([Event.query devCmd, Event.query addrCmd, Event.query resolveCmd,
                  Event.query routeCmd],
                 Except.ok
                   { Device := device
                     IPAddress := ipAddress
                     Netmask := netmask
                     Gateway := gateway
                     DNS1 := nameservers.getD 0 ""
                     DNS2 := if nameservers.length > 1 then nameservers.getD 1 "" else "" })
          | _ =>
            ([Event.query devCmd, Event.query addrCmd],
             Except.error "panic: runtime error: index out of range")

/-- ConfigureDynamicAssignment of the network package: after the
capability gate, write a UseDHCP setting for eth0 and for eth1
unconditionally, then announce the needed restart. -/
def ConfigureDynamicAssignment (cfg : InstanceConfig) (driver : Driver) :
    List Event × Except String Unit :=
  match checkSupportForAddressAssignment cfg with
  | Except.error m => ([], Except.error m)
  | Except.ok _ =>
    let networkSettingsEth0 : NetworkSettings := { Device := "eth0", UseDHCP := true }
    let networkSettingsEth1 : NetworkSettings := { Device := "eth1", UseDHCP := true }
    ([Event.println "Dynamic assignment of IP address"]
       ++ (WriteNetworkSettingsToHost driver networkSettingsEth0).1
       ++ (WriteNetworkSettingsToHost driver networkSettingsEth1).1
       ++ [Event.println configureRestartNeededMessage],
     Except.ok ())

/-- ConfigureStaticAssignment of the network package: after the capability
gate and discovery, VirtualBox and KVM get the discovered settings plus a
DHCP companion on eth0, HyperV and Xhyve get the discovered settings plus
a disabled eth1; any other hypervisor kind reaches neither branch. The
discovered IP address is then persisted and the summary printed. -/
def ConfigureStaticAssignment (cfg : InstanceConfig) (hv : Hypervisor) (driver : Driver) :
    List Event × Except String Unit :=
  match checkSupportForAddressAssignment cfg with
  | Except.error m => ([], Except.error m)
  | Except.ok _ =>
    let ev0 := [Event.println "Static assignment of IP address"]
    match GetNetworkSettingsForHost driver with
    | (qev, Except.error m) => (ev0 ++ qev, Except.error m)
    | (qev, Except.ok networkSettings) =>
      let evA :=
        if IsVirtualBox hv || IsKVM hv then
          [Event.println "vbox or kvm"]
            ++ (WriteNetworkSettingsToHost driver networkSettings).1
            ++ (WriteNetworkSettingsToHost driver { Device := "eth0", UseDHCP := true }).1
        else []
      let evB :=
        if IsHyperV hv || IsXhyve hv then
          [Event.println "hyperv or xhyve"]
            ++ (WriteNetworkSettingsToHost driver networkSettings).1
            ++ (WriteNetworkSettingsToHost driver { Device := "eth1", Disabled := true }).1
        else []
      let newCfg := { cfg with IPAddress := networkSettings.IPAddress }
      (ev0 ++ qev ++ evA ++ evB
         ++ printNetworkSettings networkSettings
         ++ [Event.persist newCfg, Event.println configureRestartNeededMessage],
       Except.ok ())

/-- Whether an event is a WriteNetworkSettingsToHost remote write. -/
def isWriteEvent : Event → Bool
  | Event.writeHost _ => true
  | _ => false

/-- The WriteNetworkSettingsToHost calls recorded in a trace. -/
def writeCalls (evs : List Event) : List Event :=
  evs.filter isWriteEvent

end Network

namespace Prov

/-- Oracle for the provision.Provisioner remote command capability. -/
structure Provisioner where
  sshCommand : String → Except String String

/-- getFilesystemType of the provisioner helpers: stat the directory's
filesystem type over SSH and trim the output. -/
def getFilesystemType (p : Provisioner) (directory : String) : Except String String :=
  match p.sshCommand ("stat -f -c %T " ++ directory) with
  | Except.error e => Except.error ("Error looking up file system type: " ++ e)
  | Except.ok statCommandOutput => Except.ok (goTrimSpace statCommandOutput)

/-- decideStorageDriver of the provisioner helpers: a supplied driver wins
verbatim; a non-aufs default wins without probing; an aufs default probes
/var/lib and picks btrfs exactly when detected. -/
def decideStorageDriver (p : Provisioner) (defaultDriver suppliedDriver : String) :
    Except String String :=
  if suppliedDriver ≠ "" then
    Except.ok suppliedDriver
  else if defaultDriver ≠ "aufs" then
    Except.ok defaultDriver
  else
    match getFilesystemType p "/var/lib" with
    | Except.error e => Except.error e
    | Except.ok remoteFilesystemType =>
      if remoteFilesystemType = "btrfs" then Except.ok "btrfs" else Except.ok "aufs"

end Prov

end Minishift

open Minishift Minishift.Ocp Minishift.Network Minishift.Prov

/-- Fetch environment in which every external effect succeeds. -/
def happyFetchEnv : FetchEnv :=
  { tmpDirOk := true, tmpDir := "/tmp/minishift-asset-download-1",
    downloadResult := .ok (), ungzipOk := true, untarOk := true, unzipOk := true,
    dirEntries := .ok [], mkdirOk := true, copyResult := .ok (), chmodResult := .ok () }

/-- Fetch environment whose extracted directory holds only the archive
and its gunzipped intermediate — the state the tar path always leaves
behind before untar contributes anything — so the listing excluding the
archive pattern is empty. -/
def zeroEntryFetchEnv : FetchEnv :=
  { happyFetchEnv with dirEntries := .ok ["oc.tar.gz", "oc.tar"] }

/-- Fetch environment whose extracted directory holds two non-archive
entries. -/
def twoEntryFetchEnv : FetchEnv :=
  { happyFetchEnv with dirEntries := .ok ["kubernetes", "openshift"] }

/-- Driver oracle that answers every call with an empty success. -/
def idleDriver : Driver := { getIP := .ok "", runSSH := fun _ => .ok "" }

/-- Provisioner oracle whose stat probe reports a btrfs filesystem. -/
def btrfsProvisioner : Prov.Provisioner := { sshCommand := fun _ => .ok "btrfs\n" }

/-- Instance configuration failing the capability gate. -/
def noSupportCfg : InstanceConfig :=
  { IPAddress := "", IsRHELBased := false, SupportsNetworkAssignment := true }

/-- Instance configuration passing the capability gate, with no persisted
IP address. -/
def demoCfg : InstanceConfig :=
  { IPAddress := "", IsRHELBased := true, SupportsNetworkAssignment := true }

/-- Driver oracle whose discovery queries all succeed with a fixed CIDR
answer. -/
def demoDriver : Driver :=
  { getIP := .ok "10.0.0.2", runSSH := fun _ => .ok "10.0.0.2/24" }

/-- The discovery query trace produced by demoDriver. -/
def demoQueries : List Event :=
  [Event.query "ip a |grep -i \x2710.0.0.2\x27 | awk \x27\x7bprint $NF\x7d\x27 | tr -d \x27\n\x27",
   Event.query "ip -o -f inet addr show 10.0.0.2/24 | head -n1 | awk \x27/scope global/ \x7bprint $4\x7d\x27",
   Event.query "cat /etc/resolv.conf |grep -i \x27^nameserver\x27 | cut -d \x27 \x27 -f2 | tr \x27\n\x27 \x27 \x27",
   Event.query "route -n | grep \x27UG[ \t]\x27 | awk \x27\x7bprint $2\x7d\x27 | tr -d \x27\n\x27"]

/-- The network settings discovered through demoDriver. -/
def demoSettings : NetworkSettings :=
  { Device := "10.0.0.2/24", IPAddress := "10.0.0.2", Netmask := "24",
    Gateway := "10.0.0.2/24", DNS1 := "10.0.0.2/24" }

/-- Driver oracle on which every networking write command fails while the
discovery queries succeed. -/
def failingWriteDriver : Driver :=
  { getIP := .ok "10.0.0.2",
    runSSH := fun c =>
      if "echo ".data.isPrefixOf c.data then .error "ssh command failed"
      else .ok "10.0.0.2/24" }

/-- Filtering the apply calls distributes over trace concatenation. -/
lemma writeCalls_append (a b : List Event) :
    writeCalls (a ++ b) = writeCalls a ++ writeCalls b := by
  simp [writeCalls]

/-- The discovery phase performs remote queries only, never an apply call. -/
lemma writeCalls_discovery (d : Driver) : writeCalls (GetNetworkSettingsForHost d).1 = [] := by
  cases hg : d.getIP with
  | error e => simp [GetNetworkSettingsForHost, hg, writeCalls]
  | ok ip =>
    by_cases hip : ip = ""
    · simp [GetNetworkSettingsForHost, hg, hip, writeCalls]
    · cases h1 : d.runSSH ("ip a |grep -i \x27" ++ ip ++ "\x27 | awk \x27\x7bprint $NF\x7d\x27 | tr -d \x27\n\x27") with
      | error e => simp [GetNetworkSettingsForHost, hg, hip, h1, writeCalls, isWriteEvent]
      | ok device =>
        cases h2 : d.runSSH ("ip -o -f inet addr show " ++ device ++ " | head -n1 | awk \x27/scope global/ \x7bprint $4\x7d\x27") with
        | error e => simp [GetNetworkSettingsForHost, hg, hip, h1, h2, writeCalls, isWriteEvent]
        | ok addressInfo =>
          cases h3 : goSplit (goTrimSpace addressInfo) '/' with
          | nil => simp [GetNetworkSettingsForHost, hg, hip, h1, h2, h3, writeCalls, isWriteEvent]
          | cons ipAddr tl =>
            cases tl with
            | nil => simp [GetNetworkSettingsForHost, hg, hip, h1, h2, h3, writeCalls, isWriteEvent]
            | cons nm tl2 =>
              cases h4 : d.runSSH "cat /etc/resolv.conf |grep -i \x27^nameserver\x27 | cut -d \x27 \x27 -f2 | tr \x27\n\x27 \x27 \x27" with
              | error e => simp [GetNetworkSettingsForHost, hg, hip, h1, h2, h3, h4, writeCalls, isWriteEvent]
              | ok resolveInfo =>
                cases h5 : d.runSSH "route -n | grep \x27UG[ \t]\x27 | awk \x27\x7bprint $2\x7d\x27 | tr -d \x27\n\x27" with
                | error e => simp [GetNetworkSettingsForHost, hg, hip, h1, h2, h3, h4, h5, writeCalls, isWriteEvent]
                | ok gw => simp [GetNetworkSettingsForHost, hg, hip, h1, h2, h3, h4, h5, writeCalls, isWriteEvent]

/-- The settings summary consists of println events only. -/
lemma writeCalls_print (ns : NetworkSettings) : writeCalls (printNetworkSettings ns) = [] := by
  by_cases h1 : ns.Gateway = "" <;> by_cases h2 : ns.DNS1 = "" <;>
    simp [printNetworkSettings, writeCalls, h1, h2, isWriteEvent]

/-- Every path through the copy tail records the mkdirAll step. -/
lemma mkdirAll_mem_finish (osType : OS) (outputPath root : String) (env : FetchEnv)
    (evs : List FetchEvent) :
    FetchEvent.mkdirAll outputPath ∈ (finishBinaryCopy osType outputPath root env evs).1 := by
  unfold finishBinaryCopy
  repeat' split
  all_goals simp [List.mem_append]

/-- Static-mode apply calls on the recognized hypervisor kinds: the
discovered settings plus a DHCP eth0 companion on VirtualBox and KVM, the
discovered settings plus a disabled eth1 on HyperV and Xhyve. -/
lemma static_companion_writes (cfg : InstanceConfig) (hv : Hypervisor) (d : Driver)
    (qev : List Event) (ns : NetworkSettings)
    (hgate : (cfg.IsRHELBased && cfg.SupportsNetworkAssignment) = true)
    (hdisc : GetNetworkSettingsForHost d = (qev, Except.ok ns)) :
    ((hv = Hypervisor.kvm ∨ hv = Hypervisor.virtualbox) →
      writeCalls (ConfigureStaticAssignment cfg hv d).1
        = [Event.writeHost ns, Event.writeHost { Device := "eth0", UseDHCP := true }])
    ∧ ((hv = Hypervisor.hyperv ∨ hv = Hypervisor.xhyve) →
      writeCalls (ConfigureStaticAssignment cfg hv d).1
        = [Event.writeHost ns, Event.writeHost { Device := "eth1", Disabled := true }]) := by
  have hq : writeCalls qev = [] := by
    have h := writeCalls_discovery d
    rw [hdisc] at h
    exact h
  constructor <;> rintro (rfl | rfl) <;>
    simp only [ConfigureStaticAssignment, checkSupportForAddressAssignment, hgate, hdisc,
      IsVirtualBox, IsKVM, IsHyperV, IsXhyve, WriteNetworkSettingsToHost] <;>
    simp only [Bool.or_self, Bool.or_false, Bool.false_or, ite_true, ite_false,
      Bool.and_self, if_true, if_false] <;>
    simp only [writeCalls_append, writeCalls_print, hq] <;>
    rfl

/-- Claim C1, counterexample: on the unrecognized hypervisor kind
"hyperkit", a successful static-mode configuration run performs zero
WriteNetworkSettingsToHost calls — not the single apply call of the
discovered settings that the claim asserts — while still succeeding and
persisting the discovered IP address. -/
theorem claim_C1_counterexample :
    writeCalls (ConfigureStaticAssignment demoCfg (Hypervisor.other "hyperkit") demoDriver).1 = []
    ∧ (ConfigureStaticAssignment demoCfg (Hypervisor.other "hyperkit") demoDriver).2
        = Except.ok ()
    ∧ Event.persist { demoCfg with IPAddress := "10.0.0.2" }
        ∈ (ConfigureStaticAssignment demoCfg (Hypervisor.other "hyperkit") demoDriver).1 := by
  refine ⟨by rfl, by rfl, by decide⟩

/-- Claim C1, amended: for every hypervisor kind other than VIRTUALBOX,
KVM, HYPERV and XHYVE, static-mode configuration performs no
WriteNetworkSettingsToHost call at all — the discovered settings are not
applied either — yet it still persists the discovered IP address and
prints the network-settings summary before the restart notice. -/
theorem claim_C1 (cfg : InstanceConfig) (d : Driver) (name : String)
    (qev : List Event) (ns : NetworkSettings)
    (hgate : (cfg.IsRHELBased && cfg.SupportsNetworkAssignment) = true)
    (hdisc : GetNetworkSettingsForHost d = (qev, Except.ok ns)) :
    writeCalls (ConfigureStaticAssignment cfg (Hypervisor.other name) d).1 = []
    ∧ (ConfigureStaticAssignment cfg (Hypervisor.other name) d).2 = Except.ok ()
    ∧ Event.persist { cfg with IPAddress := ns.IPAddress }
        ∈ (ConfigureStaticAssignment cfg (Hypervisor.other name) d).1
    ∧ Event.println configureIPAddressMessage
        ∈ (ConfigureStaticAssignment cfg (Hypervisor.other name) d).1 := by
  have hq : writeCalls qev = [] := by
    have h := writeCalls_discovery d
    rw [hdisc] at h
    exact h
  have hrun : ConfigureStaticAssignment cfg (Hypervisor.other name) d
      = ([Event.println "Static assignment of IP address"] ++ qev ++ [] ++ []
           ++ printNetworkSettings ns
           ++ [Event.persist { cfg with IPAddress := ns.IPAddress },
               Event.println configureRestartNeededMessage],
         Except.ok ()) := by
    simp only [ConfigureStaticAssignment, checkSupportForAddressAssignment, hgate, hdisc,
      IsVirtualBox, IsKVM, IsHyperV, IsXhyve, Bool.or_self, if_true, if_pos, ite_true]
    simp
  rw [hrun]
  refine ⟨?_, rfl, ?_, ?_⟩
  · simp only [writeCalls_append, writeCalls_print, hq]
    rfl
  · simp [printNetworkSettings]
  · simp [printNetworkSettings]

/-- Claim C1, witness: the amended statement evaluated on a concrete
gate-passing configuration, driver oracle and unrecognized hypervisor. -/
theorem claim_C1_witness :
    writeCalls (ConfigureStaticAssignment demoCfg (Hypervisor.other "generic") demoDriver).1
      = [] :=
  (claim_C1 demoCfg demoDriver "generic" demoQueries demoSettings rfl (by decide)).1

/-- Claim C2, counterexample: a tar.gz run whose working directory holds
zero non-archive entries after extraction does not return the
unexpected-layout error — it succeeds and performs the copy, contrary to
the claim that zero entries is rejected with no copy. -/
theorem claim_C2_counterexample :
    listDirExcluding ["oc.tar.gz", "oc.tar"] = []
    ∧ (DownloadOcpVersionFromMirror "v3.7.0" OS.linux "/out" zeroEntryFetchEnv).2
        = Except.ok ()
    ∧ FetchEvent.copyFile "/tmp/minishift-asset-download-1/oc" "/out/oc"
        ∈ (DownloadOcpVersionFromMirror "v3.7.0" OS.linux "/out" zeroEntryFetchEnv).1 := by
  refine ⟨by rfl, by rfl, by decide⟩

/-- Claim C2, amended: only the .tar.gz path checks the extracted layout,
and it only rejects two-or-more non-archive entries: then it returns the
unexpected-files error and performs no copy. A zero-or-one-entry listing
proceeds to the copy phase, and the .zip path reaches the copy phase with
no layout check at all. -/
theorem claim_C2 (version outputPath : String) (env : FetchEnv) (entries : List String)
    (htmp : env.tmpDirOk = true) (hdl : env.downloadResult = Except.ok ()) :
    (∀ osType : OS, osType ≠ OS.windows →
      env.ungzipOk = true → env.untarOk = true → env.dirEntries = Except.ok entries →
      ((1 < (listDirExcluding entries).length →
          (DownloadOcpVersionFromMirror version osType outputPath env).2
            = Except.error ("Unexpected number of files in tmp directory: ["
                ++ String.intercalate " " (listDirExcluding entries) ++ "]")
          ∧ ∀ s t, FetchEvent.copyFile s t
              ∉ (DownloadOcpVersionFromMirror version osType outputPath env).1)
       ∧ ((listDirExcluding entries).length ≤ 1 →
          FetchEvent.mkdirAll outputPath
            ∈ (DownloadOcpVersionFromMirror version osType outputPath env).1)))
    ∧ (env.unzipOk = true →
        FetchEvent.mkdirAll outputPath
          ∈ (DownloadOcpVersionFromMirror version OS.windows outputPath env).1) := by
  constructor
  · intro osType hw hug hut hent
    have hsuf : goHasSuffix ("oc." ++ archiveExtension osType) TAR = true := by
      cases osType
      · rfl
      · rfl
      · exact absurd rfl hw
    refine ⟨fun hlen => ⟨?_, ?_⟩, fun hlen => ?_⟩
    · simp [DownloadOcpVersionFromMirror, htmp, hdl, hug, hut, hent, hsuf, hlen]
    · intro s t
      simp [DownloadOcpVersionFromMirror, htmp, hdl, hug, hut, hent, hsuf, hlen]
    · have hnot : ¬ (1 < (listDirExcluding entries).length) := not_lt.mpr hlen
      simp [DownloadOcpVersionFromMirror, htmp, hdl, hug, hut, hent, hsuf, hnot,
        mkdirAll_mem_finish]
  · intro hz
    have hsufT : goHasSuffix ("oc." ++ archiveExtension OS.windows) TAR = false := rfl
    have hsufZ : goHasSuffix ("oc." ++ archiveExtension OS.windows) ZIP = true := rfl
    simp [DownloadOcpVersionFromMirror, htmp, hdl, hz, hsufT, hsufZ, mkdirAll_mem_finish]

/-- Claim C2, witness: the amended statement evaluated on a concrete
two-entry extraction, yielding the unexpected-files error. -/
theorem claim_C2_witness :
    (DownloadOcpVersionFromMirror "v1.0" OS.linux "/out" twoEntryFetchEnv).2
      = Except.error "Unexpected number of files in tmp directory: [kubernetes openshift]" := by
  have h := (((claim_C2 "v1.0" "/out" twoEntryFetchEnv ["kubernetes", "openshift"]
    rfl rfl).1 OS.linux (by decide) rfl rfl rfl).1 (by decide)).1
  exact h.trans (by rfl)

/-- Claim C3: for every platform, the archive extension is .zip exactly on
WINDOWS and .tar.gz otherwise, and the final binary name carries the
suffix .exe exactly on WINDOWS. -/
theorem claim_C3 (osType : OS) :
    ("." ++ archiveExtension osType = ".zip" ↔ osType = OS.windows)
    ∧ ("." ++ archiveExtension osType = ".tar.gz" ↔ osType ≠ OS.windows)
    ∧ (goHasSuffix (finalBinaryName osType) ".exe" = true ↔ osType = OS.windows) := by
  cases osType <;> refine ⟨by decide, by decide, by decide⟩

/-- Claim C4: downloading version v3.7.0 for WINDOWS into /out requests
the mirror URL with the leading v stripped and WINDOWS passed through
unmapped, unzips, copies the binary to /out/oc.exe and makes it
executable, returning success. -/
theorem claim_C4 :
    DownloadOcpVersionFromMirror "v3.7.0" OS.windows "/out" happyFetchEnv
      = ([FetchEvent.download (OMURL ++ "3.7.0/windows/oc.zip")
            "/tmp/minishift-asset-download-1/oc.zip",
          FetchEvent.unzip "/tmp/minishift-asset-download-1/oc.zip"
            "/tmp/minishift-asset-download-1",
          FetchEvent.mkdirAll "/out",
          FetchEvent.copyFile "/tmp/minishift-asset-download-1/oc.exe" "/out/oc.exe",
          FetchEvent.chmod "/out/oc.exe"],
         Except.ok ()) := by
  rfl

/-- Claim C5: fillNetworkSettingsScript selects its template with the
priority disabled, then dhcp, then static, regardless of the other
fields; the static rendering is exactly the DEVICE, IPADDR, NETMASK,
GATEWAY, DNS1 and DNS2 key=value lines. -/
theorem claim_C5 (ns : NetworkSettings) :
    (ns.Disabled = true →
      fillNetworkSettingsScript ns = "DEVICE=" ++ ns.Device ++ "\nDISABLED=true\n")
    ∧ (ns.Disabled = false → ns.UseDHCP = true →
      fillNetworkSettingsScript ns = "DEVICE=" ++ ns.Device ++ "\nUSEDHCP=true\n")
    ∧ (ns.Disabled = false → ns.UseDHCP = false →
      fillNetworkSettingsScript ns =
        "DEVICE=" ++ ns.Device ++ "\nIPADDR=" ++ ns.IPAddress ++ "\nNETMASK=" ++ ns.Netmask
          ++ "\nGATEWAY=" ++ ns.Gateway ++ "\nDNS1=" ++ ns.DNS1 ++ "\nDNS2=" ++ ns.DNS2 ++ "\n") := by
  refine ⟨?_, ?_, ?_⟩
  · intro h
    simp [fillNetworkSettingsScript, renderDisabledAddressTemplate, goBoolString, h,
      String.append_assoc]
  · intro h1 h2
    simp [fillNetworkSettingsScript, renderDynamicAddressTemplate, goBoolString, h1, h2,
      String.append_assoc]
  · intro h1 h2
    simp [fillNetworkSettingsScript, renderStaticAddressTemplate, h1, h2]

/-- Claim C5, witness: a settings value with every field populated and
Disabled set renders the disabled template. -/
theorem claim_C5_witness :
    fillNetworkSettingsScript
      { Device := "eth9", IPAddress := "1.2.3.4", Netmask := "24", Gateway := "1.2.3.1",
        DNS1 := "8.8.8.8", DNS2 := "9.9.9.9", UseDHCP := true, Disabled := true }
      = "DEVICE=eth9\nDISABLED=true\n" :=
  (claim_C5 _).1 rfl

/-- Claim C6: under the capability gate, static-mode configuration on KVM
or VirtualBox performs exactly two apply calls — the discovered settings,
then a DHCP setting for eth0 — and on HyperV or Xhyve exactly two apply
calls — the discovered settings, then a disabled setting for eth1. -/
theorem claim_C6 (cfg : InstanceConfig) (hv : Hypervisor) (d : Driver)
    (qev : List Event) (ns : NetworkSettings)
    (hgate : (cfg.IsRHELBased && cfg.SupportsNetworkAssignment) = true)
    (hdisc : GetNetworkSettingsForHost d = (qev, Except.ok ns)) :
    ((hv = Hypervisor.kvm ∨ hv = Hypervisor.virtualbox) →
      writeCalls (ConfigureStaticAssignment cfg hv d).1
        = [Event.writeHost ns, Event.writeHost { Device := "eth0", UseDHCP := true }])
    ∧ ((hv = Hypervisor.hyperv ∨ hv = Hypervisor.xhyve) →
      writeCalls (ConfigureStaticAssignment cfg hv d).1
        = [Event.writeHost ns, Event.writeHost { Device := "eth1", Disabled := true }]) :=
  static_companion_writes cfg hv d qev ns hgate hdisc

/-- Claim C6, witness: the KVM case evaluated on a concrete gate-passing
configuration and driver oracle. -/
theorem claim_C6_witness :
    writeCalls (ConfigureStaticAssignment demoCfg Hypervisor.kvm demoDriver).1
      = [Event.writeHost demoSettings,
         Event.writeHost { Device := "eth0", UseDHCP := true }] :=
  (claim_C6 demoCfg Hypervisor.kvm demoDriver demoQueries demoSettings rfl (by decide)).1
    (Or.inl rfl)

/-- Claim C7: when the capability gate is false, both static and dynamic
configuration abort fatally with the not-supported message before any
apply call, so the trace is empty — zero remote writes and no persisted
configuration change. -/
theorem claim_C7 (cfg : InstanceConfig) (hv : Hypervisor) (d : Driver)
    (h : (cfg.IsRHELBased && cfg.SupportsNetworkAssignment) = false) :
    ConfigureStaticAssignment cfg hv d = ([], Except.error configureNetworkNotSupportedMessage)
    ∧ ConfigureDynamicAssignment cfg d = ([], Except.error configureNetworkNotSupportedMessage)
    ∧ writeCalls (ConfigureStaticAssignment cfg hv d).1 = []
    ∧ writeCalls (ConfigureDynamicAssignment cfg d).1 = []
    ∧ (∀ c, Event.persist c ∉ (ConfigureStaticAssignment cfg hv d).1) := by
  refine ⟨?_, ?_, ?_, ?_, ?_⟩ <;>
    simp [ConfigureStaticAssignment, ConfigureDynamicAssignment,
      checkSupportForAddressAssignment, h, writeCalls]

/-- Claim C7, witness: the gate-failing configuration evaluated on KVM. -/
theorem claim_C7_witness :
    ConfigureStaticAssignment noSupportCfg Hypervisor.kvm idleDriver
      = ([], Except.error configureNetworkNotSupportedMessage) :=
  (claim_C7 noSupportCfg Hypervisor.kvm idleDriver rfl).1

/-- Claim C8: decideStorageDriver returns a non-empty supplied driver
verbatim; with no supplied driver and default aufs it returns btrfs
exactly when the probed filesystem type is btrfs and aufs otherwise; with
no supplied driver and a non-aufs default it returns the default without
consulting the remote filesystem probe. -/
theorem claim_C8 (p p2 : Prov.Provisioner) (defaultDriver suppliedDriver : String) :
    (suppliedDriver ≠ "" →
      decideStorageDriver p defaultDriver suppliedDriver = Except.ok suppliedDriver)
    ∧ (suppliedDriver = "" → defaultDriver = "aufs" →
      ∀ t, getFilesystemType p "/var/lib" = Except.ok t →
        decideStorageDriver p defaultDriver suppliedDriver
          = Except.ok (if t = "btrfs" then "btrfs" else "aufs"))
    ∧ (suppliedDriver = "" → defaultDriver ≠ "aufs" →
      decideStorageDriver p defaultDriver suppliedDriver = Except.ok defaultDriver
      ∧ decideStorageDriver p2 defaultDriver suppliedDriver
          = decideStorageDriver p defaultDriver suppliedDriver) := by
  refine ⟨?_, ?_, ?_⟩
  · intro h
    simp [decideStorageDriver, h]
  · intro h1 h2 t ht
    by_cases hb : t = "btrfs" <;> simp [decideStorageDriver, h1, h2, ht, hb]
  · intro h1 h2
    constructor <;> simp [decideStorageDriver, h1, h2]

/-- Claim C8, witness: with no supplied driver, default aufs and a probe
reporting btrfs, the resolved driver is btrfs. -/
theorem claim_C8_witness :
    decideStorageDriver btrfsProvisioner "aufs" "" = Except.ok "btrfs" := by
  have h := (claim_C8 btrfsProvisioner btrfsProvisioner "aufs" "").2.1 rfl rfl "btrfs" (by decide)
  simpa using h

/-- Claim C9: WriteNetworkSettingsToHost returns false exactly when the
remote write command fails and true otherwise, and the configurators
ignore that result: with no assumption on remote command outcomes, the
dynamic run applies both eth0 and eth1 and the static KVM run applies
both the discovered settings and the eth0 companion, so a failed write
never prevents the sibling write. -/
theorem claim_C9 (cfg : InstanceConfig) (d : Driver) (ns found : NetworkSettings)
    (qev : List Event) :
    ((exceptFailed (d.runSSH (networkingCmd ns)) = true →
        (WriteNetworkSettingsToHost d ns).2 = false)
     ∧ (exceptFailed (d.runSSH (networkingCmd ns)) = false →
        (WriteNetworkSettingsToHost d ns).2 = true))
    ∧ ((cfg.IsRHELBased && cfg.SupportsNetworkAssignment) = true →
        writeCalls (ConfigureDynamicAssignment cfg d).1
          = [Event.writeHost { Device := "eth0", UseDHCP := true },
             Event.writeHost { Device := "eth1", UseDHCP := true }])
    ∧ ((cfg.IsRHELBased && cfg.SupportsNetworkAssignment) = true →
        GetNetworkSettingsForHost d = (qev, Except.ok found) →
        writeCalls (ConfigureStaticAssignment cfg Hypervisor.kvm d).1
          = [Event.writeHost found, Event.writeHost { Device := "eth0", UseDHCP := true }]) := by
  refine ⟨⟨?_, ?_⟩, ?_, ?_⟩
  · intro h
    simp [WriteNetworkSettingsToHost, h]
  · intro h
    simp [WriteNetworkSettingsToHost, h]
  · intro hgate
    simp only [ConfigureDynamicAssignment, checkSupportForAddressAssignment, hgate,
      WriteNetworkSettingsToHost, ite_true, if_true]
    simp only [writeCalls_append]
    rfl
  · intro hgate hdisc
    exact (static_companion_writes cfg Hypervisor.kvm d qev found hgate hdisc).1 (Or.inl rfl)

/-- Claim C9, witness: on a driver whose write commands all fail, the
first dynamic-mode write returns false, yet both interface writes are
still attempted. -/
theorem claim_C9_witness :
    (WriteNetworkSettingsToHost failingWriteDriver { Device := "eth0", UseDHCP := true }).2
        = false
    ∧ writeCalls (ConfigureDynamicAssignment demoCfg failingWriteDriver).1
        = [Event.writeHost { Device := "eth0", UseDHCP := true },
           Event.writeHost { Device := "eth1", UseDHCP := true }] :=
  ⟨(claim_C9 demoCfg failingWriteDriver { Device := "eth0", UseDHCP := true }
      { Device := "" } []).1.1 (by decide),
   (claim_C9 demoCfg failingWriteDriver { Device := "" } { Device := "" } []).2.1 rfl⟩

/-- Claim C10: GetIP returns the persisted instance IP whenever it is not
empty, independently of the driver; with an empty persisted IP it returns
the driver result, success or error. -/
theorem claim_C10 (cfg : InstanceConfig) (d d2 : Driver) :
    (cfg.IPAddress ≠ "" →
      GetIP cfg d = Except.ok cfg.IPAddress ∧ GetIP cfg d = GetIP cfg d2)
    ∧ (cfg.IPAddress = "" →
      (∀ ip, d.getIP = Except.ok ip → GetIP cfg d = Except.ok ip)
      ∧ (∀ e, d.getIP = Except.error e → GetIP cfg d = Except.error e)) := by
  constructor
  · intro h
    simp [GetIP, h]
  · intro h
    constructor <;> intro x hx <;> simp [GetIP, h, hx]

/-- Claim C10, witness: a persisted address of 1.1.1.1 is returned without
consulting the driver. -/
theorem claim_C10_witness :
    GetIP { IPAddress := "1.1.1.1", IsRHELBased := true, SupportsNetworkAssignment := true }
      idleDriver = Except.ok "1.1.1.1" :=
  ((claim_C10 { IPAddress := "1.1.1.1", IsRHELBased := true, SupportsNetworkAssignment := true }
    idleDriver idleDriver).1 (by decide)).1
